import Mathlib

/-!
Verification development for the `discord-player-applemusic` repository.

The repository is a TypeScript extractor for a music storefront.  This file
gives a shallow embedding of its core functions and proves properties of the
embedding:

* `parseDuration` — the ISO-8601-like duration normalizer (AppleMusicAPI),
  including the exact semantics of the JavaScript regular expression it
  builds (unanchored first-match search, greedy quantifiers with
  backtracking, named optional capture groups);
* `makeImage` — the artwork URL templater;
* the three URL classifier regular expressions and `isUrl`/`validate`;
* `getHTML` — the page fetcher promise chain;
* the four extractors (search, song, album, playlist) over an abstract
  document-tree model, with every JSON access and every JavaScript
  truthiness test mirrored explicitly;
* `stream` — the facade streaming indirection.

JavaScript conventions used throughout the embedding:
* a value of type `Option String` models a JS value that may be `undefined`
  or `null` (`none`) or a string (`some s`);
* JS truthiness of such a value is `jsTruthy` (`undefined`, `null` and the
  empty string are falsy);
* exceptions are modelled with `Except`; a `try/catch` collapses the
  `Except` into its fallback.
-/

/-- JS truthiness of a possibly-undefined string: `undefined`/`null` and
`""` are falsy, every other string is truthy. -/
def jsTruthy : Option String → Bool
  | some s => s != ""
  | none => false

/-- JS `x || d` for a possibly-undefined string `x` and a string default
`d`: returns the string in `x` when it is truthy, else `d`. -/
def jsOrD (x : Option String) (d : String) : String :=
  if jsTruthy x then x.getD "" else d

/-- JS `x || y` for two possibly-undefined strings (result may still be
falsy). -/
def jsOrOpt (x y : Option String) : Option String :=
  if jsTruthy x then x else y

/-- Equality of `Except` values is decidable componentwise (used to settle
concrete fixture computations by `decide`). -/
instance {A B : Type} [DecidableEq A] [DecidableEq B] : DecidableEq (Except A B) := fun x y =>
  match x, y with
  | .error a, .error b =>
    if h : a = b then .isTrue (by rw [h]) else .isFalse (by simp [h])
  | .ok a, .ok b =>
    if h : a = b then .isTrue (by rw [h]) else .isFalse (by simp [h])
  | .error _, .ok _ => .isFalse (by simp)
  | .ok _, .error _ => .isFalse (by simp)

/-!
## Duration normalizer (`parseDuration`)

The source builds the regular expression

  `(?<negative>-)?P((?<years>-?\d*[\.,]?\d+)Y)?((?<months>-?\d*[\.,]?\d+)M)?`
  `((?<weeks>-?\d*[\.,]?\d+)W)?((?<days>-?\d*[\.,]?\d+)D)?`
  `(T((?<hours>-?\d*[\.,]?\d+)H)?((?<minutes>-?\d*[\.,]?\d+)M)?((?<seconds>-?\d*[\.,]?\d+)S)?)?`

and runs `regex.exec(d)`, i.e. an unanchored search for the first match.
Everything after the mandatory `P` is optional, so a match attempt at a
given start position succeeds exactly when the (optionally `-`-preceded)
character `P` stands there; once `P` has matched, no later part of the
pattern can fail, so the engine commits to the greedy first choice of every
quantifier.  The embedding below reproduces the preference order of the
engine exactly: for each unit component `((?<name>-?\d*[\.,]?\d+)X)?` the
alternatives of `-?`, `\d*`, `[\.,]?` and `\d+` are enumerated in engine
order (take before skip, longer before shorter, later choice points varying
fastest) and the first alternative that leaves the unit letter `X` next is
taken.
-/

/-- The seven named unit capture groups of the duration pattern
(`undefined` is `none`). -/
structure DurUnits where
  years : Option String
  months : Option String
  weeks : Option String
  days : Option String
  hours : Option String
  minutes : Option String
  seconds : Option String
deriving Repr, DecidableEq

/-- All named capture groups of the duration pattern: the unused
`negative` group and the seven unit groups. -/
structure DurGroups where
  negative : Option String
  units : DurUnits
deriving Repr, DecidableEq

/-- Alternatives of `-?` at a position, in engine preference order
(take the minus first). -/
def durMinusOpts (cs : List Char) : List (List Char × List Char) :=
  match cs with
  | '-' :: t => [(['-'], t), ([], '-' :: t)]
  | _ => [([], cs)]

/-- Alternatives of `\d*` at a position, in engine preference order
(longest first). -/
def durStarOpts (cs : List Char) : List (List Char × List Char) :=
  let k := (cs.takeWhile Char.isDigit).length
  ((List.range (k + 1)).reverse).map (fun j => (cs.take j, cs.drop j))

/-- Alternatives of `[\.,]?` at a position, in engine preference order
(take the separator first). -/
def durDotOpts (cs : List Char) : List (List Char × List Char) :=
  match cs with
  | c :: t => if c = '.' ∨ c = ',' then [([c], t), ([], c :: t)] else [([], c :: t)]
  | [] => [([], [])]

/-- Alternatives of `\d+` at a position, in engine preference order
(longest first); empty when no digit stands at the position. -/
def durPlusOpts (cs : List Char) : List (List Char × List Char) :=
  let k := (cs.takeWhile Char.isDigit).length
  ((List.range k).reverse).map (fun j => (cs.take (j + 1), cs.drop (j + 1)))

/-- All ways the number subpattern `-?\d*[\.,]?\d+` can match at a
position, as (captured characters, remaining characters), in engine
preference order (later choice points vary fastest). -/
def durNumSplits (cs : List Char) : List (List Char × List Char) :=
  (durMinusOpts cs).flatMap (fun m =>
    (durStarOpts m.2).flatMap (fun a =>
      (durDotOpts a.2).flatMap (fun d =>
        (durPlusOpts d.2).map (fun b =>
          (m.1 ++ a.1 ++ d.1 ++ b.1, b.2)))))

/-- Match the optional component `((?<name>-?\d*[\.,]?\d+)X)?` at a
position: the first number alternative (in engine order) followed by the
unit letter `u` is taken; if none exists the component matches empty and
the group stays `undefined`. -/
def durUnitComp (u : Char) (cs : List Char) : Option String × List Char :=
  match (durNumSplits cs).find? (fun p => p.2.head? = some u) with
  | some p => (some (String.mk p.1), p.2.tail)
  | none => (none, cs)

/-- Match the part of the duration pattern after the mandatory `P`
(never fails: every component is optional). -/
def durGroupsAfterP (cs : List Char) : DurUnits :=
  let y := durUnitComp 'Y' cs
  let mo := durUnitComp 'M' y.2
  let w := durUnitComp 'W' mo.2
  let d := durUnitComp 'D' w.2
  match d.2 with
  | 'T' :: rest =>
    let h := durUnitComp 'H' rest
    let mi := durUnitComp 'M' h.2
    let s := durUnitComp 'S' mi.2
    ⟨y.1, mo.1, w.1, d.1, h.1, mi.1, s.1⟩
  | _ => ⟨y.1, mo.1, w.1, d.1, none, none, none⟩

/-- Attempt of the duration pattern at one start position: succeeds iff an
optionally `-`-preceded `P` stands there (the engine prefers taking the
`-`; both orders give the same groups since `-` and `P` differ). -/
def durMatchAt (cs : List Char) : Option DurGroups :=
  match cs with
  | [] => none
  | c :: rest =>
    if c = 'P' then some ⟨none, durGroupsAfterP rest⟩
    else if c = '-' then
      match rest with
      | [] => none
      | c2 :: r2 => if c2 = 'P' then some ⟨some "-", durGroupsAfterP r2⟩ else none
    else none

/-- `regex.exec`: first match position scanning left to right. -/
def durExec : List Char → Option DurGroups
  | [] => none
  | c :: t =>
    match durMatchAt (c :: t) with
    | some g => some g
    | none => durExec t

/-- JS `String.prototype.padStart(2, "0")`. -/
def padStart2 (s : String) : String :=
  if s.length ≥ 2 then s else String.mk (List.replicate (2 - s.length) '0') ++ s

/-- Render captured unit groups exactly as the source does:

  `dur.filter((item, i, a) => !!item || i > a.length - 2)`
  `   .map((m, i) => { if (!m) m = "0"; return i < 1 ? m : m.padStart(2, "0"); })`
  `   .join(":") || "0:00"`

(`dur` is the fixed array `[years, months, weeks, days, hours, minutes,
seconds]`; in `filter`, `a` is that 7-element array; in `map`, `i` is the
index in the filtered array). -/
def renderUnits (u : DurUnits) : String :=
  let dur := [u.years, u.months, u.weeks, u.days, u.hours, u.minutes, u.seconds]
  let kept := dur.enum.filter (fun p => jsTruthy p.2 || decide (p.1 > dur.length - 2))
  let mapped := kept.enum.map (fun q =>
    let v := if jsTruthy q.2.2 then (q.2.2).getD "" else "0"
    if q.1 < 1 then v else padStart2 v)
  let joined := String.intercalate ":" mapped
  if joined = "" then "0:00" else joined

/-- Render an optional exec result: no match yields the default (the
`!test.groups` guard of the source never fires on its own, since a pattern
with named groups always carries a groups object once it matches). -/
def renderExec : Option DurGroups → String
  | none => "0:00"
  | some g => renderUnits g.units

/-- `parseDuration` from `AppleMusicAPI`: run the duration regular
expression on the string and render the captured groups. -/
def parseDuration (d : String) : String :=
  renderExec (durExec d.data)

/-!
## Image URL templater (`makeImage`)

`url.replace("{w}", width).replace("{h}", height).replace("{f}", ext)`:
JS `String.prototype.replace` with a string pattern replaces only the
FIRST occurrence.
-/

/-- Does `pat` stand at the head of `cs`? -/
def listStartsWith : List Char → List Char → Bool
  | [], _ => true
  | _ :: _, [] => false
  | p :: ps, c :: cs => p = c && listStartsWith ps cs

/-- Replace the first occurrence of `pat` in `cs` by `rep` (identity when
`pat` does not occur); `pat` is nonempty at every use site. -/
def replaceFirstAux (pat rep : List Char) : List Char → List Char
  | [] => []
  | c :: cs =>
    if listStartsWith pat (c :: cs) then rep ++ (c :: cs).drop pat.length
    else c :: replaceFirstAux pat rep cs

/-- JS `s.replace(pat, rep)` for a string pattern: first occurrence only. -/
def jsReplace (s pat rep : String) : String :=
  String.mk (replaceFirstAux pat.data rep.data s.data)

/-- One step list of groups for `jsSplit`; the first argument is fuel
bounding the number of consumed characters (structural recursion, so that
concrete computations reduce inside the kernel). -/
def splitChars (sep : List Char) : Nat → List Char → List (List Char)
  | _, [] => [[]]
  | 0, cs => [cs]
  | fuel + 1, c :: cs =>
    if listStartsWith sep (c :: cs) then
      [] :: splitChars sep fuel ((c :: cs).drop sep.length)
    else
      match splitChars sep fuel cs with
      | [] => [[c]]
      | g :: gs => (c :: g) :: gs

/-- JS `s.split(sep)` for a nonempty string separator: split at every
non-overlapping occurrence, scanning left to right; leading, trailing and
adjacent separators yield empty groups, and a string without the
separator yields the one-element list. -/
def jsSplit (s sep : String) : List String :=
  (splitChars sep.data s.data.length s.data).map String.mk

/-- `makeImage` from `AppleMusicAPI`: substitute the width, height and
format placeholders (format defaults to `"jpg"` at the call sites that
omit it). -/
def makeImage (url : String) (width height : Nat) (ext : String := "jpg") : String :=
  jsReplace (jsReplace (jsReplace url "{w}" (toString width)) "{h}" (toString height)) "{f}" ext

/-!
## URL classifier regular expressions

The three patterns from `internal/helper`:

  `appleMusicSongRegex     = /^https?:\/\/music\.apple\.com\/.+?\/(song|album)\/.+?(\/.+?\?i=|\/)([0-9]+)$/`
  `appleMusicAlbumRegex    = /^https?:\/\/music\.apple\.com\/.+?\/album\/.+\/([0-9]+)$/`
  `appleMusicPlaylistRegex = /^https?:\/\/music\.apple\.com\/.+?\/playlist\/.+\/pl\.(u-|pm-)?[a-zA-Z0-9]+$/`

All three are anchored at both ends and tested with `.test`, so a test is
a full-string match and quantifier laziness is irrelevant; matching is
decided with Brzozowski derivatives.
-/

/-- Regular expressions over characters; `cls` is a character class. -/
inductive RE where
  | void : RE
  | eps : RE
  | cls : (Char → Bool) → RE
  | cat : RE → RE → RE
  | alt : RE → RE → RE
  | star : RE → RE

/-- Does the regular expression accept the empty string? -/
def RE.nullable : RE → Bool
  | .void => false
  | .eps => true
  | .cls _ => false
  | .cat a b => a.nullable && b.nullable
  | .alt a b => a.nullable || b.nullable
  | .star _ => true

/-- Smart concatenation (collapses `void` and `eps`). -/
def RE.scat : RE → RE → RE
  | .void, _ => .void
  | .eps, b => b
  | a, b => .cat a b

/-- Smart alternation (collapses `void`). -/
def RE.salt : RE → RE → RE
  | .void, b => b
  | a, .void => a
  | a, b => .alt a b

/-- Brzozowski derivative by one character. -/
def RE.deriv : RE → Char → RE
  | .void, _ => .void
  | .eps, _ => .void
  | .cls p, c => if p c then .eps else .void
  | .cat a b, c =>
    if a.nullable then .salt (.scat (a.deriv c) b) (b.deriv c)
    else .scat (a.deriv c) b
  | .alt a b, c => .salt (a.deriv c) (b.deriv c)
  | .star a, c => .scat (a.deriv c) (.star a)

/-- Full-string matching by iterated derivatives; models `.test` for the
doubly-anchored patterns above. -/
def RE.test (r : RE) (s : String) : Bool :=
  (s.data.foldl RE.deriv r).nullable

/-- Single character. -/
def RE.chr (c : Char) : RE := .cls (fun d => d = c)

/-- Literal string. -/
def RE.lit (s : String) : RE := s.data.foldr (fun c r => .cat (.chr c) r) .eps

/-- One or more repetitions. -/
def RE.plus (r : RE) : RE := .cat r (.star r)

/-- Zero or one repetition. -/
def RE.opt (r : RE) : RE := .alt r .eps

/-- JS `.` without flags: any character except a line terminator. -/
def reDot : RE :=
  .cls (fun c => !(c = '\n' || c = '\r' || c = ' ' || c = ' '))

/-- `[0-9]`. -/
def reDigit : RE := .cls Char.isDigit

/-- `[a-zA-Z0-9]`. -/
def reAlnum : RE :=
  .cls (fun c => ('a' ≤ c && c ≤ 'z') || ('A' ≤ c && c ≤ 'Z') || ('0' ≤ c && c ≤ '9'))

/-- Sequence of regular expressions. -/
def reSeq (rs : List RE) : RE := rs.foldr RE.cat .eps

/-- `appleMusicSongRegex`. -/
def appleMusicSongRegex : RE :=
  reSeq [RE.lit "http", RE.opt (RE.chr 's'), RE.lit "://music.apple.com/",
    RE.plus reDot, RE.chr '/', RE.alt (RE.lit "song") (RE.lit "album"), RE.chr '/',
    RE.plus reDot,
    RE.alt (reSeq [RE.chr '/', RE.plus reDot, RE.lit "?i="]) (RE.chr '/'),
    RE.plus reDigit]

/-- `appleMusicAlbumRegex`. -/
def appleMusicAlbumRegex : RE :=
  reSeq [RE.lit "http", RE.opt (RE.chr 's'), RE.lit "://music.apple.com/",
    RE.plus reDot, RE.lit "/album/", RE.plus reDot, RE.chr '/', RE.plus reDigit]

/-- `appleMusicPlaylistRegex`. -/
def appleMusicPlaylistRegex : RE :=
  reSeq [RE.lit "http", RE.opt (RE.chr 's'), RE.lit "://music.apple.com/",
    RE.plus reDot, RE.lit "/playlist/", RE.plus reDot, RE.lit "/pl.",
    RE.opt (RE.alt (RE.lit "u-") (RE.lit "pm-")), RE.plus reAlnum]

/-- Modelled from the spec: `isUrl` in the source calls the platform URL
constructor (`new URL(url)`), which is not part of this repository.  The
spec calls such inputs "URL-shaped"; the constructor accepts exactly
strings that begin with a scheme — an ASCII letter followed by letters,
digits, `+`, `-` or `.` — and a colon.  The model tests that prefix. -/
def isUrl (s : String) : Bool :=
  match s.data with
  | [] => false
  | c :: rest =>
    c.isAlpha &&
      ((rest.dropWhile (fun d => d.isAlphanum || d = '+' || d = '-' || d = '.')).head?
        == some ':')

/-- `validate` from `AppleMusicExtractor`:
`!isUrl(query) || [albumRegex, playlistRegex, songRegex].some(r => r.test(query))`. -/
def validate (query : String) : Bool :=
  !isUrl query ||
    (appleMusicAlbumRegex.test query || appleMusicPlaylistRegex.test query ||
      appleMusicSongRegex.test query)

/-- The extractor consulted by `handle`. -/
inductive Dispatch where
  | song : Dispatch
  | album : Dispatch
  | playlist : Dispatch
  | search : Dispatch
deriving Repr, DecidableEq

/-- The branch structure of `handle`: the first of the song, album and
playlist tests that fires wins, otherwise the query is searched. -/
def dispatchOf (query : String) : Dispatch :=
  if appleMusicSongRegex.test query then .song
  else if appleMusicAlbumRegex.test query then .album
  else if appleMusicPlaylistRegex.test query then .playlist
  else .search

/-!
## Data model

`AppleMusicTrack` and `AppleMusicCollection` from `AppleMusicAPI`.  The
TypeScript type declares `artist: string`, but the album extractor assigns
`jsonLd.byArtist[0].name` to it without any fallback, so at runtime the
field can be `undefined`; it is therefore modelled as `Option String` and
the extractors that do guarantee a string produce `some`.
-/

structure AppleMusicTrack where
  id : String
  title : String
  artist : Option String
  thumbnail : String
  duration : String
  url : String
deriving Repr, DecidableEq

structure AppleMusicCollection where
  id : Option String
  title : String
  description : Option String
  artwork : String
  tracks : List AppleMusicTrack
  url : Option String
  artist : Option String
deriving Repr, DecidableEq

/-- The fixed fallback favicon thumbnail. -/
def fallbackThumbnail : String := "https://music.apple.com/assets/favicon/favicon-180.png"

/-!
## Page fetcher (`getHTML`)

  `fetch(link, { headers }).then((r) => r.text()).then((txt) => parse(txt), () => null)`

Promises are modelled with `Except`: a rejected promise is `.error`.  The
decisive JS semantics: in `p.then(onF, onR)`, `onR` handles only
rejections of `p` itself — an exception raised by `onF` is NOT caught by
the `onR` of the same `then`; it rejects the resulting promise.
-/

/-- The fetch response: `r.text()` yields a promise of the body text. -/
structure JsResponse (E : Type) where
  text : Except E String

/-- `p.then(onF)`. -/
def jsThen {E A B : Type} (p : Except E A) (onF : A → Except E B) : Except E B :=
  match p with
  | .error e => .error e
  | .ok a => onF a

/-- `p.then(onF, onR)`: `onR` sees only rejections of `p`; exceptions
raised by `onF` pass through. -/
def jsThenBoth {E A B : Type} (p : Except E A) (onF : A → Except E B)
    (onR : E → Except E B) : Except E B :=
  match p with
  | .error e => onR e
  | .ok a => onF a

/-- `getHTML`: the fetch outcome and the HTML parser are the two external
collaborators; the result is a promise of a document tree or `null`. -/
def getHTML {E Doc : Type} (fetchRes : Except E (JsResponse E))
    (parseHtml : String → Except E Doc) : Except E (Option Doc) :=
  jsThenBoth (jsThen fetchRes (fun r => r.text))
    (fun txt =>
      match parseHtml txt with
      | .ok d => .ok (some d)
      | .error e => .error e)
    (fun _ => .ok none)

/-!
## Search extractor (`AppleMusic.search`)

The serialized-server-data payload, at the shape the source reads it
(`JSON.parse(raw)[0].data.sections`); the field types are the ones the
source annotates on the `map` callback (`contentDescriptor`, `title`
required; `duration`, `artwork`, `subtitleLinks` optional).
-/

structure SearchArtworkDict where
  url : String
  height : Nat
  width : Nat
deriving Repr, DecidableEq

structure SearchArtwork where
  dictionary : Option SearchArtworkDict
deriving Repr, DecidableEq

structure SearchIdentifiers where
  storeAdamID : String
deriving Repr, DecidableEq

structure SearchContentDescriptor where
  identifiers : SearchIdentifiers
  url : String
deriving Repr, DecidableEq

structure SearchSubtitleLink where
  title : String
deriving Repr, DecidableEq

structure SearchItem where
  contentDescriptor : SearchContentDescriptor
  duration : Option String
  title : String
  artwork : Option SearchArtwork
  subtitleLinks : Option (List SearchSubtitleLink)
deriving Repr, DecidableEq

structure SearchSection where
  itemKind : String
  items : Option (List SearchItem)
deriving Repr, DecidableEq

/-- The `tracks.map(...)` callback of `search`. -/
def searchTrackOf (t : SearchItem) : AppleMusicTrack :=
  { id := t.contentDescriptor.identifiers.storeAdamID
    duration := jsOrD t.duration "0:00"
    title := t.title
    url := t.contentDescriptor.url
    thumbnail :=
      match t.artwork.bind SearchArtwork.dictionary with
      | some dict => makeImage dict.url dict.width dict.height
      | none => fallbackThumbnail
    artist :=
      some (match t.subtitleLinks with
        | some l =>
          match l.head? with
          | some sl => sl.title
          | none => "Unknown Artist"
        | none => "Unknown Artist") }

/-- `AppleMusic.search`.  The argument is the serialized-server-data
payload: `none` models a failed fetch or a missing
`serialized-server-data` element, `some (.error _)` a `JSON.parse` or
navigation exception (caught by the surrounding `try`), `some (.ok _)`
the section list. -/
def search (pageData : Option (Except Unit (List SearchSection))) : List AppleMusicTrack :=
  match pageData with
  | none => []
  | some (.error _) => []
  | some (.ok sections) =>
    match sections.find? (fun s => s.itemKind == "trackLockup") with
    | none => []
    | some sec =>
      match sec.items with
      | none => []
      | some its => its.map searchTrackOf

/-!
## Song extractor (`AppleMusic.getSongInfo`)

A fetched song page is modelled by its meta tags, the text of its `title`
element and the text of the `.song-subtitles__artists>a` node.
-/

structure MetaTag where
  nameAttr : Option String
  property : Option String
  content : Option String
  textContent : String
deriving Repr, DecidableEq

structure SongPage where
  metas : List MetaTag
  titleText : Option String
  subtitleArtistText : Option String
deriving Repr, DecidableEq

/-- First match of `/\/artist\/([^/]+)/` over the characters: scan start
positions left to right; at a position the literal `/artist/` must stand
there followed by at least one character that is not `/`; the capture is
the maximal such run. -/
def artistSlugOf : List Char → Option String
  | [] => none
  | c :: cs =>
    if listStartsWith "/artist/".data (c :: cs) then
      match ((c :: cs).drop 8).takeWhile (fun d => d != '/') with
      | [] => artistSlugOf cs
      | seg => some (String.mk seg)
    else artistSlugOf cs

/-- `w.charAt(0).toUpperCase() + w.slice(1)`. -/
def titleCaseWord (w : String) : String :=
  match w.data with
  | [] => ""
  | c :: rest => String.mk (c.toUpper :: rest)

/-- `seg.split("-").map(titleCaseWord).join(" ")`. -/
def titleCaseSlug (s : String) : String :=
  String.intercalate " " ((jsSplit s "-").map titleCaseWord)

/-- The artist fallback chain after the musician-meta route failed:
`res.querySelector(".song-subtitles__artists>a")?.textContent?.trim() || "Apple Music"`. -/
def songArtistFallback (p : SongPage) : String :=
  jsOrD (p.subtitleArtistText.map String.trim) "Apple Music"

/-- The artist IIFE of `getSongInfo`. -/
def songArtist (p : SongPage) : String :=
  match p.metas.find? (fun m => m.property == some "music:musician") with
  | some mm =>
    if jsTruthy mm.content then
      match artistSlugOf (mm.content.getD "").data with
      | some seg => titleCaseSlug seg
      | none => songArtistFallback p
    else songArtistFallback p
  | none => songArtistFallback p

/-- The duration of `getSongInfo`: the structured duration meta run
through `parseDuration` when truthy; otherwise
`find(apple:description)?.textContent.split("Duration: ")?.[1].split("\"")?.[0] || "0:00"`,
where a description without `"Duration: "` leaves `[1]` undefined and
`undefined.split` raises a TypeError (caught by the surrounding `try`). -/
def songDuration (p : SongPage) : Except Unit String :=
  let durationRaw :=
    (p.metas.find? (fun m => m.property == some "music:song:duration")).bind MetaTag.content
  if jsTruthy durationRaw then .ok (parseDuration (durationRaw.getD "")) else
    match p.metas.find? (fun m => m.nameAttr == some "apple:description") with
    | none => .ok "0:00"
    | some m =>
      match (jsSplit m.textContent "Duration: ").get? 1 with
      | none => .error ()
      | some p1 => .ok (jsOrD ((jsSplit p1 "\"").head?) "0:00")

/-- `https://music.apple.com/us/song/NAME/ID`. -/
def songCanonicalUrl (name id : String) : String :=
  "https://music.apple.com/us/song/" ++ name ++ "/" ++ id

/-- The `try` body of `getSongInfo` (after the fetch): `.ok none` is a
`return null`, `.error` a thrown exception. -/
def songBody (p : SongPage) (name id : String) : Except Unit (Option AppleMusicTrack) :=
  if p.metas.length = 0 then .ok none else
  let title :=
    jsOrOpt ((p.metas.find? (fun m => m.nameAttr == some "apple:title")).bind MetaTag.content)
      (jsOrOpt p.titleText (some name))
  let contentId :=
    jsOrD ((p.metas.find? (fun m => m.nameAttr == some "apple:content_id")).bind MetaTag.content) id
  match songDuration p with
  | .error e => .error e
  | .ok dur =>
    .ok (some {
      id := contentId
      duration := dur
      title := jsOrD title "Unknown Title"
      url := songCanonicalUrl name id
      thumbnail :=
        jsOrD ((p.metas.find? (fun m =>
          m.property == some "og:image:secure_url" || m.property == some "og:image")).bind
            MetaTag.content) fallbackThumbnail
      artist := some (songArtist p) })

/-- `AppleMusic.getSongInfo`.  The URL-parse prelude (the platform `new
URL` recovering the slug and identifier from the two path shapes) is
supplied as the `name` and `id` arguments; the source then requires both
to be truthy, fetches the canonical song URL (`page` is the fetched
document or `null`) and runs the `try` body, converting any thrown
exception to `null`. -/
def getSongInfo (name id : Option String) (page : Option SongPage) : Option AppleMusicTrack :=
  if !jsTruthy id || !jsTruthy name then none else
  match page with
  | none => none
  | some p =>
    match songBody p (name.getD "") (id.getD "") with
    | .ok r => r
    | .error _ => none

/-!
## Playlist extractor (`AppleMusic.getPlaylistInfo`)

A fetched playlist page is modelled by the content attributes of its
`og:` meta elements (outer `Option`: element present; inner: attribute
value), the `schema:music-playlist` JSON-LD script (outer `Option`:
element present; `Except`: the `JSON.parse` outcome at the shape the
source reads) and the serialized-server-data artist recovery (outer
`Option`: script present; inner `Option`: whether the `try` block
succeeded, with the collected `artistName` values).

Decisive control flow of the source: the artist recovery is wrapped in
`try { ... } catch {}`, but `JSON.parse(jsonLdElement.text)` and the
per-track `track.url!.split("/")` are NOT inside any `try`, so those two
raise out of the function.
-/

structure LdArtist where
  name : Option String
deriving Repr, DecidableEq

structure PlaylistLdTrack where
  name : Option String
  byArtist : Option LdArtist
  duration : Option String
  url : Option String
deriving Repr, DecidableEq

structure PlaylistLd where
  track : Option (List PlaylistLdTrack)
deriving Repr, DecidableEq

structure PlaylistPage where
  ogTitle : Option (Option String)
  ogDescription : Option (Option String)
  ogImage : Option (Option String)
  jsonLd : Option (Except Unit PlaylistLd)
  serializedArtists : Option (Option (List (Option String)))
deriving DecidableEq

/-- One entry of the `jsonLd.track.forEach` loop;
`artistNames[index] || track.byArtist?.name || "Unknown Artist"`;
a missing `track.url` makes `track.url!.split` raise. -/
def playlistTrackOf (artistNames : List (Option String)) (idx : Nat)
    (t : PlaylistLdTrack) : Except Unit AppleMusicTrack :=
  match t.url with
  | none => .error ()
  | some u =>
    .ok {
      id := jsOrD ((jsSplit u "/").getLast?) ""
      title := jsOrD t.name "Unknown Title"
      artist :=
        some (jsOrD (jsOrOpt ((artistNames.get? idx).join) (t.byArtist.bind LdArtist.name))
          "Unknown Artist")
      duration := parseDuration (jsOrD t.duration "PT0S")
      url := jsOrD (some u) ""
      thumbnail := fallbackThumbnail }

/-- The `forEach` loop with its running index; a raise aborts the whole
call, discarding tracks already pushed. -/
def playlistTracksAux (artistNames : List (Option String)) :
    Nat → List PlaylistLdTrack → Except Unit (List AppleMusicTrack)
  | _, [] => .ok []
  | idx, t :: ts =>
    match playlistTrackOf artistNames idx t with
    | .error e => .error e
    | .ok tr =>
      match playlistTracksAux artistNames (idx + 1) ts with
      | .error e => .error e
      | .ok trs => .ok (tr :: trs)

/-- `const title = titleElement ? titleElement.getAttribute("content") : "Unknown Title"`. -/
def playlistTitleOf (p : PlaylistPage) : Option String :=
  match p.ogTitle with
  | none => some "Unknown Title"
  | some c => c

/-- `const description = descriptionElement ? ... : "No Description"`. -/
def playlistDescriptionOf (p : PlaylistPage) : Option String :=
  match p.ogDescription with
  | none => some "No Description"
  | some c => c

/-- `const artwork = artworkElement ? artworkElement.getAttribute("content") : ""`. -/
def playlistArtworkOf (p : PlaylistPage) : Option String :=
  match p.ogImage with
  | none => some ""
  | some c => c

/-- The best-effort artist recovery: `[]` when the serialized script is
absent or its `try` block raised. -/
def playlistArtistNames (p : PlaylistPage) : List (Option String) :=
  match p.serializedArtists with
  | some (some l) => l
  | _ => []

/-- The track list: empty when the JSON-LD element is absent or carries no
`track` field; the `JSON.parse` outcome and any raise inside the loop
propagate (neither is inside a `try`). -/
def playlistTracksOf (p : PlaylistPage) : Except Unit (List AppleMusicTrack) :=
  match p.jsonLd with
  | none => .ok []
  | some (.error e) => .error e
  | some (.ok ld) =>
    match ld.track with
    | none => .ok []
    | some ts => playlistTracksAux (playlistArtistNames p) 0 ts

/-- The returned collection record of `getPlaylistInfo` (after the null
check on the fetched page). -/
def playlistCollectionOf (link : String) (p : PlaylistPage) :
    Except Unit AppleMusicCollection :=
  match playlistTracksOf p with
  | .error e => .error e
  | .ok tracks =>
    .ok {
      id := none
      title := jsOrD (playlistTitleOf p) "Unknown Album"
      description := playlistDescriptionOf p
      artwork := jsOrD (playlistArtworkOf p) fallbackThumbnail
      tracks := tracks
      url := some link
      artist := none }

/-- `AppleMusic.getPlaylistInfo`: `.ok none` models a `null` return (fetch
failed), `.error` a raised exception, `.ok (some c)` the collection. -/
def getPlaylistInfo (link : String) (page : Option PlaylistPage) :
    Except Unit (Option AppleMusicCollection) :=
  match page with
  | none => .ok none
  | some p => (playlistCollectionOf link p).map some

/-!
## Album extractor (`AppleMusic.getAlbumInfo`)

The whole body after the fetch is inside `try { ... } catch { return
null }`, so every raise yields `null`.  The JSON-LD is read at the shape
`{ byArtist: [...], tracks: [...] }`; `jsonLd.byArtist[0].name` is
accessed without any guard, so a missing `byArtist` or an empty array
raises (caught), while a present first author without a `name` silently
assigns `undefined` over the `"Unknown Artist"` initialization.
-/

structure AlbumLdTrack where
  url : String
  duration : Option String
  name : Option String
deriving Repr, DecidableEq

structure AlbumLd where
  byArtist : Option (List LdArtist)
  tracks : Option (List AlbumLdTrack)
deriving Repr, DecidableEq

structure AlbumPage where
  appleTitle : Option (Option String)
  ogImage : Option (Option String)
  contentId : Option (Option String)
  jsonLd : Option (Except Unit AlbumLd)
deriving DecidableEq

/-- One entry of the `jsonLd.tracks.forEach` loop. -/
def albumTrackOf (artistName : Option String) (thumbnail : Option String)
    (t : AlbumLdTrack) : AppleMusicTrack :=
  { id := jsOrD ((jsSplit t.url "/").getLast?) ""
    duration := parseDuration (jsOrD t.duration "PT0S")
    title := jsOrD t.name "Unknown Title"
    url := jsOrD (some t.url) ""
    thumbnail := jsOrD thumbnail fallbackThumbnail
    artist := artistName }

/-- `const title = titleElement ? titleElement.getAttribute("content") : "Unknown Album"`. -/
def albumTitleOf (p : AlbumPage) : Option String :=
  match p.appleTitle with
  | none => some "Unknown Album"
  | some c => c

/-- `const thumbnail = artworkElement ? artworkElement.getAttribute("content") : favicon`. -/
def albumThumbnailOf (p : AlbumPage) : Option String :=
  match p.ogImage with
  | none => some fallbackThumbnail
  | some c => c

/-- The artist name and track list from the JSON-LD: the default artist
and no tracks when the element is absent; a `JSON.parse` raise, a missing
`byArtist` or an empty author array raise (caught by the surrounding
`try`); a present first author yields its (possibly absent) `name`. -/
def albumArtistTracks (p : AlbumPage) :
    Except Unit (Option String × List AppleMusicTrack) :=
  match p.jsonLd with
  | none => .ok (some "Unknown Artist", [])
  | some (.error e) => .error e
  | some (.ok ld) =>
    match ld.byArtist with
    | none => .error ()
    | some [] => .error ()
    | some (a :: _) =>
      .ok (a.name,
        match ld.tracks with
        | none => []
        | some ts => ts.map (albumTrackOf a.name (albumThumbnailOf p)))

/-- The `try` body of `getAlbumInfo`. -/
def albumBody (link : String) (p : AlbumPage) : Except Unit AppleMusicCollection :=
  match albumArtistTracks p with
  | .error e => .error e
  | .ok pr =>
    .ok {
      id := some (jsOrD p.contentId.join "")
      title := jsOrD (albumTitleOf p) "Unknown Album"
      artwork := jsOrD (albumThumbnailOf p) fallbackThumbnail
      artist := pr.1
      url := some link
      tracks := pr.2
      description := albumTitleOf p }

/-- `link.split("?")[0]`. -/
def stripQuery (link : String) : String := (jsSplit link "?").headD ""

/-- `AppleMusic.getAlbumInfo`: strip the query string, fetch, then run
the `try` body with every raise converted to `null`. -/
def getAlbumInfo (link : String) (fetchPage : String → Option AlbumPage) :
    Option AppleMusicCollection :=
  match fetchPage (stripQuery link) with
  | none => none
  | some p => (albumBody link p).toOption

/-!
## Facade streaming (`stream` and `activate`)

`activate` stores a stream function iff the `createStream` option is a
function; `stream` calls it when present and returns its result whether
it is a string URL or a byte stream; otherwise it asks the bridge and
raises `Error("Could not bridge this track")` when `result?.result` is
falsy.
-/

/-- An `ExtractorStreamable`: a plain URL string or a byte stream. -/
inductive Streamable where
  | url : String → Streamable
  | readable : Nat → Streamable
deriving Repr, DecidableEq

/-- JS truthiness of a streamable (`""` is falsy, a stream object is
truthy). -/
def streamableTruthy : Streamable → Bool
  | .url s => s != ""
  | .readable _ => true

/-- The bridge response object; `result` may be absent. -/
structure BridgeResult where
  result : Option Streamable
deriving Repr, DecidableEq

/-- Was the bridge outcome usable (`result?.result` truthy)? -/
def bridgeUsable (requestBridge : AppleMusicTrack → Option BridgeResult)
    (info : AppleMusicTrack) : Bool :=
  match requestBridge info with
  | none => false
  | some res =>
    match res.result with
    | none => false
    | some s => streamableTruthy s

/-- `AppleMusicExtractor.stream`.  `customStream` is the `_stream` field
as set by `activate` (`some` iff a `createStream` function was
configured, with the extractor self-argument already applied);
`requestBridge` is the bridge collaborator. -/
def stream (customStream : Option (String → AppleMusicTrack → Streamable))
    (requestBridge : AppleMusicTrack → Option BridgeResult)
    (info : AppleMusicTrack) : Except String Streamable :=
  match customStream with
  | some f =>
    match f info.url info with
    | .url s => .ok (.url s)
    | r => .ok r
  | none =>
    match requestBridge info with
    | none => .error "Could not bridge this track"
    | some res =>
      match res.result with
      | none => .error "Could not bridge this track"
      | some s => if streamableTruthy s then .ok s else .error "Could not bridge this track"

/-!
## Helper lemmas shared by the claim theorems
-/

/-- Rendering groups whose only captured unit is a nonempty seconds string
yields that string standalone: the filter `!!item || i > a.length - 2`
keeps only index 6 (`6 > 5`), and the first kept unit is not padded. -/
theorem renderUnits_seconds_only (s : String) (hs : s ≠ "") :
    renderUnits ⟨none, none, none, none, none, none, some s⟩ = s := by
  have hb : (s != "") = true := by simpa [bne_iff_ne] using hs
  simp [renderUnits, jsTruthy, List.enum, List.enumFrom, hb]
  have h1 : String.intercalate ":" [s] = s := rfl
  rw [h1, if_neg hs]

/-- A leading `-` changes neither whether the duration pattern matches nor
the rendered units: the attempt at the new position either consumes the
`-` as the `negative` group (when a `P` follows) or fails and the scan
moves on to the original string. -/
theorem durExec_cons_neg (cs : List Char) :
    renderExec (durExec ('-' :: cs)) = renderExec (durExec cs) := by
  cases cs with
  | nil => rfl
  | cons c t =>
    by_cases hc : c = 'P'
    · subst hc
      rfl
    · have h1 : durMatchAt ('-' :: c :: t) = none := by
        simp [durMatchAt, hc]
      have h2 : durExec ('-' :: c :: t) = durExec (c :: t) := by
        rw [durExec, h1]
      rw [h2]

/-- Every track returned by the song extractor body carries a present
artist string. -/
theorem songBody_artist (p : SongPage) (name id : String) (t : AppleMusicTrack)
    (h : songBody p name id = .ok (some t)) : t.artist.isSome = true := by
  unfold songBody at h
  split at h
  · simp at h
  · split at h
    · simp at h
    · simp only [Except.ok.injEq, Option.some.injEq] at h
      subst h
      rfl

/-- Every track returned by `getSongInfo` carries a present artist
string. -/
theorem getSongInfo_artist (name id : Option String) (page : Option SongPage)
    (t : AppleMusicTrack) (h : getSongInfo name id page = some t) :
    t.artist.isSome = true := by
  unfold getSongInfo at h
  split at h
  · simp at h
  · split at h
    · simp at h
    · next p =>
      split at h
      · next r heq =>
        subst h
        exact songBody_artist p _ _ t heq
      · simp at h

/-- Every track built by the playlist track loop carries a present artist
string (the chain always ends in the `"Unknown Artist"` default). -/
theorem playlistTracksAux_artist (ans : List (Option String)) :
    ∀ (idx : Nat) (ts : List PlaylistLdTrack) (trs : List AppleMusicTrack),
      playlistTracksAux ans idx ts = .ok trs → ∀ tr ∈ trs, tr.artist.isSome = true := by
  intro idx ts
  induction ts generalizing idx with
  | nil =>
    intro trs h tr htr
    simp only [playlistTracksAux, Except.ok.injEq] at h
    subst h
    cases htr
  | cons t ts ih =>
    intro trs h tr htr
    unfold playlistTracksAux at h
    split at h
    · simp at h
    · next tr0 heq0 =>
      split at h
      · simp at h
      · next trs0 heq1 =>
        simp only [Except.ok.injEq] at h
        subst h
        rcases List.mem_cons.mp htr with rfl | hmem
        · unfold playlistTrackOf at heq0
          split at heq0
          · simp at heq0
          · simp only [Except.ok.injEq] at heq0
            subst heq0
            rfl
        · exact ih _ _ heq1 tr hmem

/-- Every track of a collection returned by `getPlaylistInfo` carries a
present artist string. -/
theorem getPlaylistInfo_artist (link : String) (page : Option PlaylistPage)
    (c : AppleMusicCollection) (h : getPlaylistInfo link page = .ok (some c)) :
    ∀ tr ∈ c.tracks, tr.artist.isSome = true := by
  unfold getPlaylistInfo at h
  split at h
  · simp at h
  · next p =>
    unfold playlistCollectionOf at h
    split at h
    · simp [Except.map] at h
    · next tracks heq =>
      simp only [Except.map, Except.ok.injEq, Option.some.injEq] at h
      subst h
      simp only
      unfold playlistTracksOf at heq
      split at heq
      · simp only [Except.ok.injEq] at heq
        subst heq
        intro tr htr
        cases htr
      · simp at heq
      · next ld =>
        split at heq
        · simp only [Except.ok.injEq] at heq
          subst heq
          intro tr htr
          cases htr
        · exact playlistTracksAux_artist _ _ _ _ heq

/-- Every track of a collection built by the album body carries exactly
the collection artist (the JSON-LD author name), present or not. -/
theorem albumBody_artist (link : String) (p : AlbumPage) (c : AppleMusicCollection)
    (h : albumBody link p = .ok c) : ∀ tr ∈ c.tracks, tr.artist = c.artist := by
  unfold albumBody at h
  split at h
  · simp at h
  · next pr heq =>
    simp only [Except.ok.injEq] at h
    subst h
    simp only
    unfold albumArtistTracks at heq
    split at heq
    · simp only [Except.ok.injEq] at heq
      subst heq
      intro tr htr
      cases htr
    · simp at heq
    · split at heq
      · simp at heq
      · simp at heq
      · next a rest =>
        simp only [Except.ok.injEq] at heq
        subst heq
        simp only
        split
        · intro tr htr
          cases htr
        · next ts =>
          intro tr htr
          rcases List.mem_map.mp htr with ⟨t0, _, rfl⟩
          rfl

/-- Every track of a collection returned by `getAlbumInfo` carries exactly
the collection artist. -/
theorem getAlbumInfo_artist (link : String) (fetchPage : String → Option AlbumPage)
    (c : AppleMusicCollection) (h : getAlbumInfo link fetchPage = some c) :
    ∀ tr ∈ c.tracks, tr.artist = c.artist := by
  unfold getAlbumInfo at h
  split at h
  · simp at h
  · next p hp =>
    unfold Except.toOption at h
    split at h
    · next c0 heq =>
      simp only [Option.some.injEq] at h
      subst h
      exact albumBody_artist link p c0 heq
    · simp at h

/-!
## Fixtures for witnesses and counterexamples
-/

/-- A playlist page whose JSON-LD script is present but holds malformed
JSON. -/
def playlistPageBadLd : PlaylistPage :=
  { ogTitle := none, ogDescription := none, ogImage := none,
    jsonLd := some (.error ()), serializedArtists := none }

/-- A playlist page without a JSON-LD script. -/
def playlistPageNoLd : PlaylistPage :=
  { ogTitle := none, ogDescription := none, ogImage := none, jsonLd := none,
    serializedArtists := none }

/-- A one-track playlist page with both structured-data sources present. -/
def playlistPageFixture : PlaylistPage :=
  { ogTitle := some (some "Mix")
    ogDescription := none
    ogImage := none
    jsonLd := some (.ok ⟨some [⟨some "One", some ⟨some "A1"⟩, some "PT3M1S",
      some "https://music.apple.com/us/song/one/1001"⟩]⟩)
    serializedArtists := some (some [some "SerA"]) }

/-- The track `getPlaylistInfo` builds from `playlistPageFixture`. -/
def playlistTrackFixture : AppleMusicTrack :=
  ⟨"1001", "One", some "SerA", fallbackThumbnail, "3:01",
    "https://music.apple.com/us/song/one/1001"⟩

/-- The collection `getPlaylistInfo` returns for `playlistPageFixture`. -/
def playlistCollectionFixture : AppleMusicCollection :=
  ⟨none, "Mix", some "No Description", fallbackThumbnail, [playlistTrackFixture],
    some "https://music.apple.com/us/playlist/m/pl.abc", none⟩

/-- A search result item carrying only the required fields. -/
def searchItemFixture : SearchItem :=
  { contentDescriptor := ⟨⟨"9001"⟩, "https://music.apple.com/us/song/one/9001"⟩,
    duration := none, title := "One", artwork := none, subtitleLinks := none }

/-- A song page with one irrelevant meta tag. -/
def songPageFixture : SongPage :=
  { metas := [⟨none, none, none, ""⟩], titleText := none, subtitleArtistText := none }

/-- The track `getSongInfo` builds from `songPageFixture` with slug `slug`
and identifier `1`. -/
def songTrackFixture : AppleMusicTrack :=
  ⟨"1", "slug", some "Apple Music", fallbackThumbnail, "0:00",
    "https://music.apple.com/us/song/slug/1"⟩

/-- An album page whose JSON-LD author entry has no `name` field. -/
def albumPageNoAuthorName : AlbumPage :=
  { appleTitle := none
    ogImage := none
    contentId := none
    jsonLd := some (.ok ⟨some [⟨none⟩], some [⟨"https://x/a/1", none, none⟩]⟩) }

/-- A three-track album page by `Artist X`. -/
def albumPageFixture : AlbumPage :=
  { appleTitle := some (some "Some Album")
    ogImage := some (some "https://img/cover.jpg")
    contentId := some (some "123456")
    jsonLd := some (.ok ⟨some [⟨some "Artist X"⟩], some [
      ⟨"https://music.apple.com/us/song/one/1001", some "PT3M1S", some "One"⟩,
      ⟨"https://music.apple.com/us/song/two/1002", some "PT2M2S", some "Two"⟩,
      ⟨"https://music.apple.com/us/song/three/1003", some "PT4M3S", some "Three"⟩]⟩) }

/-- A fetcher that answers only the canonical (query-stripped) album URL. -/
def albumFetchFixture : String → Option AlbumPage := fun u =>
  if u = "https://music.apple.com/us/album/some-album/123456" then some albumPageFixture
  else none

/-!
## Claim theorems
-/

/-- Claim C1: a well-formed album link (storefront domain, `/album/` path,
trailing numeric identifier, no `?i=` parameter) is claimed to dispatch to
the album extractor.  On the code it does not: `appleMusicSongRegex`
accepts plain album links through its `(\/.+?\?i=|\/)` alternation, the
song branch of `handle` is tested first, and so the query is dispatched to
the song extractor (which then finds no `i` parameter and yields an empty
response).  This theorem evaluates the classifier at such a link. -/
theorem c1_album_link_dispatched_to_song :
    appleMusicAlbumRegex.test "https://music.apple.com/us/album/some-album/123456" = true ∧
    appleMusicSongRegex.test "https://music.apple.com/us/album/some-album/123456" = true ∧
    dispatchOf "https://music.apple.com/us/album/some-album/123456" = Dispatch.song :=
  ⟨by decide, by decide, by decide⟩

/-- Claim C2 (counterexample): the claim states `parseDuration "PT5S" =
"0:05"` and `parseDuration "PT0S" = "0:00"`; the code renders `"5"` and
`"0"`: the filter `!!item || i > a.length - 2` keeps only the final
seconds slot, not the last two. -/
theorem c2_counterexample :
    parseDuration "PT5S" = "5" ∧ ¬ parseDuration "PT5S" = "0:05" ∧
    parseDuration "PT0S" = "0" ∧ ¬ parseDuration "PT0S" = "0:00" :=
  ⟨by decide, by decide, by decide, by decide⟩

/-- Claim C2 (amended): for every duration string whose only captured
component is a (nonempty) seconds group, `parseDuration` keeps only that
final unit and renders it standalone without padding, `"5"` for `"PT5S"`
and `"0"` for `"PT0S"` — never a `0:SS` form. -/
theorem c2_seconds_only_renders_standalone (d : String) (g : DurGroups) (s : String)
    (hexec : durExec d.data = some g)
    (hu : g.units = ⟨none, none, none, none, none, none, some s⟩)
    (hs : s ≠ "") : parseDuration d = s := by
  unfold parseDuration
  rw [hexec]
  show renderUnits g.units = s
  rw [hu]
  exact renderUnits_seconds_only s hs

/-- Claim C2 witness: the amended theorem applied at `"PT5S"` and
`"PT0S"`. -/
theorem c2_seconds_only_renders_standalone_witness :
    durExec "PT5S".data = some ⟨none, ⟨none, none, none, none, none, none, some "5"⟩⟩ ∧
    parseDuration "PT5S" = "5" ∧ parseDuration "PT0S" = "0" :=
  ⟨by decide,
   c2_seconds_only_renders_standalone "PT5S"
     ⟨none, ⟨none, none, none, none, none, none, some "5"⟩⟩ "5" (by decide) rfl (by decide),
   c2_seconds_only_renders_standalone "PT0S"
     ⟨none, ⟨none, none, none, none, none, none, some "0"⟩⟩ "0" (by decide) rfl (by decide)⟩

/-- Claim C3 (counterexample): the claim states `getPlaylistInfo` never
throws even when the JSON-LD content is malformed; on the code the
`JSON.parse` of the JSON-LD script stands outside every `try`, so a
malformed block makes the call reject. -/
theorem c3_counterexample :
    getPlaylistInfo "https://music.apple.com/us/playlist/m/pl.abc" (some playlistPageBadLd) =
      .error () := rfl

/-- Claim C3 (amended): for every fetched playlist page whose JSON-LD
script block is absent, `getPlaylistInfo` returns a Collection record with
an empty track list and defaulted fields (and a failed fetch yields a
`null` return, not an error); but a present JSON-LD block with malformed
content propagates the parse error. -/
theorem c3_playlist_absent_jsonld_degrades (link : String) (p : PlaylistPage)
    (h : p.jsonLd = none) :
    (getPlaylistInfo link (some p)).map (fun oc => oc.map AppleMusicCollection.tracks) =
      .ok (some []) := by
  have ht : playlistTracksOf p = .ok [] := by
    unfold playlistTracksOf
    rw [h]
  simp [getPlaylistInfo, playlistCollectionOf, ht, Except.map]

/-- Claim C3 witness: the amended theorem applied at a concrete page
without JSON-LD. -/
theorem c3_playlist_absent_jsonld_degrades_witness :
    playlistPageNoLd.jsonLd = none ∧
    (getPlaylistInfo "https://music.apple.com/us/playlist/m/pl.abc"
        (some playlistPageNoLd)).map (fun oc => oc.map AppleMusicCollection.tracks) =
      .ok (some []) :=
  ⟨rfl, c3_playlist_absent_jsonld_degrades "https://music.apple.com/us/playlist/m/pl.abc"
    playlistPageNoLd rfl⟩

/-- Claim C4 (counterexample): the claim states every field of every
produced track is populated; the album extractor assigns
`jsonLd.byArtist[0].name` over its `"Unknown Artist"` default without any
guard, so an author entry without a `name` yields a track whose artist is
absent. -/
theorem c4_counterexample :
    (getAlbumInfo "https://music.apple.com/us/album/a/1"
        (fun _ => some albumPageNoAuthorName)).map
      (fun c => c.tracks.map AppleMusicTrack.artist) = some [none] := rfl

/-- Claim C4 (amended): every track produced by the search, song and
playlist extractors carries a present artist (and every other field is a
total string by construction, filled by the documented defaults); the
album extractor instead passes the JSON-LD author name through unchecked,
so each of its tracks carries exactly the collection artist, which may be
absent. -/
theorem c4_track_fields_populated :
    (∀ t : SearchItem, (searchTrackOf t).artist.isSome = true) ∧
    (∀ (name id : Option String) (page : Option SongPage) (t : AppleMusicTrack),
      getSongInfo name id page = some t → t.artist.isSome = true) ∧
    (∀ (link : String) (page : Option PlaylistPage) (c : AppleMusicCollection),
      getPlaylistInfo link page = .ok (some c) → ∀ tr ∈ c.tracks, tr.artist.isSome = true) ∧
    (∀ (link : String) (f : String → Option AlbumPage) (c : AppleMusicCollection),
      getAlbumInfo link f = some c → ∀ tr ∈ c.tracks, tr.artist = c.artist) :=
  ⟨fun _ => rfl, getSongInfo_artist, getPlaylistInfo_artist, getAlbumInfo_artist⟩

/-- Claim C4 witness: the amended theorem applied at concrete fixtures of
the search, song and playlist extractors. -/
theorem c4_track_fields_populated_witness :
    (searchTrackOf searchItemFixture).artist.isSome = true ∧
    songTrackFixture.artist.isSome = true ∧
    playlistTrackFixture.artist.isSome = true :=
  ⟨c4_track_fields_populated.1 searchItemFixture,
   c4_track_fields_populated.2.1 (some "slug") (some "1") (some songPageFixture)
     songTrackFixture (by decide),
   c4_track_fields_populated.2.2.1 "https://music.apple.com/us/playlist/m/pl.abc"
     (some playlistPageFixture) playlistCollectionFixture (by decide)
     playlistTrackFixture (by decide)⟩

/-- Claim C5 (counterexample): the claim states `getHTML` returns `null`
on an HTML parse failure; in the code the parse runs inside the
`onFulfilled` of the final `.then`, whose `onRejected` handles only
rejections of the previous step, so a parser exception rejects the
returned promise instead. -/
theorem c5_counterexample :
    @getHTML String Unit (.ok ⟨.ok "page"⟩) (fun _ => .error "parse failure") =
      .error "parse failure" := rfl

/-- Claim C5 (amended): `getHTML` returns `null` on an HTTP transport
failure and on a body-read failure, and a parsed document on success; but
an error thrown by the HTML parser itself is not caught and propagates to
the caller. -/
theorem c5_getHTML_failure_modes {E Doc : Type} (parseHtml : String → Except E Doc)
    (r : JsResponse E) (s : String) (d : Doc) (e : E) :
    (getHTML (.error e) parseHtml = .ok none) ∧
    (r.text = .error e → getHTML (.ok r) parseHtml = .ok none) ∧
    (r.text = .ok s → parseHtml s = .ok d → getHTML (.ok r) parseHtml = .ok (some d)) ∧
    (r.text = .ok s → parseHtml s = .error e → getHTML (.ok r) parseHtml = .error e) := by
  refine ⟨rfl, fun hr => ?_, fun hr hp => ?_, fun hr hp => ?_⟩
  · simp [getHTML, jsThen, jsThenBoth, hr]
  · simp [getHTML, jsThen, jsThenBoth, hr, hp]
  · simp [getHTML, jsThen, jsThenBoth, hr, hp]

/-- Claim C5 witness: the amended theorem applied at a concrete successful
fetch and parse. -/
theorem c5_getHTML_failure_modes_witness :
    @getHTML String Unit (.ok ⟨.ok "page"⟩) (fun _ => .ok ()) = .ok (some ()) :=
  (c5_getHTML_failure_modes (fun _ => .ok ()) ⟨.ok "page"⟩ "page" () "err").2.2.1 rfl rfl

/-- Claim C6: given a fetched album page whose JSON-LD block lists three
tracks and the author name `Artist X`, `getAlbumInfo` returns a collection
with exactly three tracks, each with artist `Artist X` and identifier
equal to the last path segment of its track URL (the final `/`-separated
component, as the code computes it by `url.split("/").pop()`); and the
result depends on the fetcher only at the query-stripped link, i.e. query
parameters are stripped before fetching. -/
theorem c6_album_extraction (link : String) (fetchPage g : String → Option AlbumPage)
    (p : AlbumPage) (ld : AlbumLd) (t1 t2 t3 : AlbumLdTrack)
    (hf : fetchPage (stripQuery link) = some p)
    (hld : p.jsonLd = some (.ok ld))
    (ha : ld.byArtist = some [⟨some "Artist X"⟩])
    (ht : ld.tracks = some [t1, t2, t3])
    (hg : g (stripQuery link) = fetchPage (stripQuery link)) :
    getAlbumInfo link g = getAlbumInfo link fetchPage ∧
    (getAlbumInfo link fetchPage).map (fun c => c.tracks.length) = some 3 ∧
    (getAlbumInfo link fetchPage).map (fun c => c.tracks.map AppleMusicTrack.artist) =
      some [some "Artist X", some "Artist X", some "Artist X"] ∧
    (getAlbumInfo link fetchPage).map (fun c => c.tracks.map AppleMusicTrack.id) =
      some [jsOrD ((jsSplit t1.url "/").getLast?) "",
        jsOrD ((jsSplit t2.url "/").getLast?) "",
        jsOrD ((jsSplit t3.url "/").getLast?) ""] := by
  have hat : albumArtistTracks p = .ok (some "Artist X",
      [albumTrackOf (some "Artist X") (albumThumbnailOf p) t1,
       albumTrackOf (some "Artist X") (albumThumbnailOf p) t2,
       albumTrackOf (some "Artist X") (albumThumbnailOf p) t3]) := by
    simp only [albumArtistTracks, hld, ha, ht, List.map_cons, List.map_nil]
  refine ⟨?_, ?_, ?_, ?_⟩
  · unfold getAlbumInfo
    rw [hg]
  · simp [getAlbumInfo, hf, albumBody, hat, Except.toOption]
  · simp [getAlbumInfo, hf, albumBody, hat, Except.toOption, albumTrackOf]
  · simp [getAlbumInfo, hf, albumBody, hat, Except.toOption, albumTrackOf]

/-- Claim C6 witness: the theorem applied at the three-track fixture page,
with a fetcher that only answers the query-stripped URL and a second
fetcher agreeing there; the identifiers are the last path segments. -/
theorem c6_album_extraction_witness :
    (getAlbumInfo "https://music.apple.com/us/album/some-album/123456?l=en-US"
        (fun _ => some albumPageFixture) =
      getAlbumInfo "https://music.apple.com/us/album/some-album/123456?l=en-US"
        albumFetchFixture) ∧
    (getAlbumInfo "https://music.apple.com/us/album/some-album/123456?l=en-US"
        albumFetchFixture).map (fun c => c.tracks.length) = some 3 ∧
    (getAlbumInfo "https://music.apple.com/us/album/some-album/123456?l=en-US"
        albumFetchFixture).map (fun c => c.tracks.map AppleMusicTrack.artist) =
      some [some "Artist X", some "Artist X", some "Artist X"] ∧
    (getAlbumInfo "https://music.apple.com/us/album/some-album/123456?l=en-US"
        albumFetchFixture).map (fun c => c.tracks.map AppleMusicTrack.id) =
      some ["1001", "1002", "1003"] := by
  have h := c6_album_extraction "https://music.apple.com/us/album/some-album/123456?l=en-US"
    albumFetchFixture (fun _ => some albumPageFixture) albumPageFixture
    ⟨some [⟨some "Artist X"⟩], some [
      ⟨"https://music.apple.com/us/song/one/1001", some "PT3M1S", some "One"⟩,
      ⟨"https://music.apple.com/us/song/two/1002", some "PT2M2S", some "Two"⟩,
      ⟨"https://music.apple.com/us/song/three/1003", some "PT4M3S", some "Three"⟩]⟩
    ⟨"https://music.apple.com/us/song/one/1001", some "PT3M1S", some "One"⟩
    ⟨"https://music.apple.com/us/song/two/1002", some "PT2M2S", some "Two"⟩
    ⟨"https://music.apple.com/us/song/three/1003", some "PT4M3S", some "Three"⟩
    (by decide) rfl rfl rfl (by decide)
  refine ⟨h.1, h.2.1, h.2.2.1, ?_⟩
  rw [h.2.2.2]
  decide

/-- Claim C7: `stream` raises the hard failure `Could not bridge this
track` exactly when no `createStream` function was configured at
activation and the bridge yields no usable (truthy) result; a configured
function has its result returned as-is (URL string or byte stream alike),
and a usable bridge result is returned without error. -/
theorem c7_stream_failure_condition
    (customStream : Option (String → AppleMusicTrack → Streamable))
    (requestBridge : AppleMusicTrack → Option BridgeResult) (info : AppleMusicTrack)
    (f : String → AppleMusicTrack → Streamable) (s : Streamable) :
    (customStream = some f →
      stream customStream requestBridge info = .ok (f info.url info)) ∧
    (customStream = none →
      (stream customStream requestBridge info).isOk = bridgeUsable requestBridge info) ∧
    (customStream = none → bridgeUsable requestBridge info = false →
      stream customStream requestBridge info = .error "Could not bridge this track") ∧
    (customStream = none → requestBridge info = some ⟨some s⟩ → streamableTruthy s = true →
      stream customStream requestBridge info = .ok s) := by
  refine ⟨fun hc => ?_, fun hc => ?_, fun hc hb => ?_, fun hc hb hs => ?_⟩
  · subst hc
    show (match f info.url info with
      | Streamable.url s => Except.ok (Streamable.url s)
      | r => Except.ok r) = Except.ok (f info.url info)
    cases f info.url info <;> rfl
  · subst hc
    rcases hrb : requestBridge info with _ | res
    · simp [stream, bridgeUsable, hrb, Except.isOk, Except.toBool]
    · rcases hres : res.result with _ | s0
      · simp [stream, bridgeUsable, hrb, hres, Except.isOk, Except.toBool]
      · cases hst : streamableTruthy s0 <;>
          simp [stream, bridgeUsable, hrb, hres, hst, Except.isOk, Except.toBool]
  · subst hc
    rcases hrb : requestBridge info with _ | res
    · simp [stream, hrb]
    · rcases hres : res.result with _ | s0
      · simp [stream, hrb, hres]
      · simp only [bridgeUsable, hrb, hres] at hb
        simp [stream, hrb, hres, hb]
  · subst hc
    simp [stream, hb, hs]

/-- Claim C7 witness: the theorem applied with a configured function, with
a usable bridge, and with no bridge result. -/
theorem c7_stream_failure_condition_witness :
    stream (some (fun u _ => Streamable.url u)) (fun _ => none)
      ⟨"1", "T", some "A", "th", "0:00", "https://u"⟩ = .ok (.url "https://u") ∧
    stream none (fun _ => some ⟨some (.readable 7)⟩)
      ⟨"1", "T", some "A", "th", "0:00", "https://u"⟩ = .ok (.readable 7) ∧
    stream none (fun _ => none)
      ⟨"1", "T", some "A", "th", "0:00", "https://u"⟩ =
      .error "Could not bridge this track" :=
  ⟨(c7_stream_failure_condition _ _ _ (fun u _ => Streamable.url u) (.readable 7)).1 rfl,
   (c7_stream_failure_condition none (fun _ => some ⟨some (.readable 7)⟩) _
     (fun u _ => Streamable.url u) (.readable 7)).2.2.2 rfl rfl rfl,
   (c7_stream_failure_condition none (fun _ => none) _ (fun u _ => Streamable.url u)
     (.readable 7)).2.2.1 rfl rfl⟩

/-- Claim C8: `validate` accepts a query iff it is not URL-shaped, or it
matches one of the three link patterns; a song link with a trailing
numeric identifier and `?i=` query validates true, a playlist link whose
identifier lacks the `pl.` prefix validates false, and every non-URL
string validates true. -/
theorem c8_validate_rule (query : String) :
    (validate query = (!isUrl query || (appleMusicAlbumRegex.test query ||
      appleMusicPlaylistRegex.test query || appleMusicSongRegex.test query))) ∧
    (isUrl query = false → validate query = true) ∧
    validate "https://music.apple.com/us/album/foo/12345?i=678" = true ∧
    validate "https://music.apple.com/us/playlist/foo/abc123" = false := by
  refine ⟨rfl, fun h => ?_, by decide, by decide⟩
  unfold validate
  rw [h]
  rfl

/-- Claim C8 witness: the theorem applied at a non-URL query. -/
theorem c8_validate_rule_witness : validate "hello world" = true :=
  (c8_validate_rule "hello world").2.1 (by decide)

/-- Claim C9: `parseDuration "PT1H2M3S" = "1:02:03"` (first retained unit
unpadded, later units zero-padded to width 2, joined with colons), and
every input on which the duration pattern finds no match yields the
default `"0:00"`; the function is total, so it never throws. -/
theorem c9_duration_examples_and_default :
    parseDuration "PT1H2M3S" = "1:02:03" ∧
    parseDuration "not-a-duration" = "0:00" ∧
    ∀ d : String, durExec d.data = none → parseDuration d = "0:00" := by
  refine ⟨by decide, by decide, fun d h => ?_⟩
  unfold parseDuration
  rw [h]
  rfl

/-- Claim C9 witness: the no-match clause applied at a concrete
unparseable input. -/
theorem c9_duration_examples_and_default_witness :
    durExec "hello".data = none ∧ parseDuration "hello" = "0:00" :=
  ⟨by decide, c9_duration_examples_and_default.2.2 "hello" (by decide)⟩

/-- Claim C10: prepending `-` to any string leaves `parseDuration`
unchanged: the `negative` group is captured but never read by the
rendering. -/
theorem c10_leading_negative_ignored (s : String) :
    parseDuration ("-" ++ s) = parseDuration s := by
  unfold parseDuration
  rw [String.data_append]
  show renderExec (durExec ('-' :: s.data)) = _
  exact durExec_cons_neg s.data
